import Mathlib

/-!
Shallow embedding of the Task Registry Adapter of `src/src-tauri/src/lib.rs`.

The adapter has two backends:
* the Structured backend (`#[cfg(target_os = "windows")]` branches, driving
  `schtasks.exe`), and
* the Text backend (the `not(windows)` branches, driving `crontab`).

Pure string computation (cron expressions, table filtering, argument lists) is
translated directly.  The process boundary is modelled explicitly: each
external invocation is represented by its observed outcome — either the I/O
error string (the code's `map_err` input) or a `ProcOutput` record carrying
the exit status flag together with captured stdout/stderr.  The backend
functions take those outcomes as arguments and return `Except String String`,
mirroring the Rust `Result<String, String>`.
-/

/-- Outcome of a completed external process: `success` is
`output.status.success()`, `stdout`/`stderr` are the captured streams after
`String::from_utf8_lossy`. -/
structure ProcOutput where
  success : Bool
  stdout : String
  stderr : String
deriving DecidableEq, Repr

/-! ### Rust string primitives

`str::split(c)`, `str::lines()` and `str::contains(sub)` are re-implemented on
the character lists underlying Lean strings, with Rust's semantics:
`split` always yields at least one (possibly empty) chunk; `lines` splits on
`\n`, drops a final empty chunk produced by a trailing newline, and strips one
trailing `\r` from each line; `contains` is substring occurrence. -/

/-- Split a character list at every occurrence of `c` (Rust `str::split`):
the result is the list of chunks between separators, always nonempty. -/
def splitOnChar (c : Char) : List Char → List (List Char)
  | [] => [[]]
  | x :: xs =>
    match splitOnChar c xs with
    | [] => [[]]
    | r :: rs => if x = c then [] :: r :: rs else (x :: r) :: rs

/-- Rust `str::split(c)` on Lean strings. -/
def rustSplit (c : Char) (s : String) : List String :=
  (splitOnChar c s.data).map String.mk

/-- Strip one trailing carriage return, as Rust `str::lines` does to each
line. -/
def stripCR (l : List Char) : List Char :=
  if l.getLast? = some '\r' then l.dropLast else l

/-- Rust `str::lines()`: split on `'\n'`, drop the empty chunk a trailing
newline would produce, strip one trailing `'\r'` per line. -/
def rustLines (s : String) : List String :=
  let parts := splitOnChar '\n' s.data
  let parts := if parts.getLast? = some [] then parts.dropLast else parts
  parts.map (fun l => String.mk (stripCR l))

/-- `needle` is a prefix of `hay` (boolean). -/
def isPrefixB : List Char → List Char → Bool
  | [], _ => true
  | _ :: _, [] => false
  | a :: as, b :: bs => a == b && isPrefixB as bs

/-- `needle` occurs as a contiguous substring of the second list. -/
def containsSub (needle : List Char) : List Char → Bool
  | [] => isPrefixB needle []
  | c :: cs => isPrefixB needle (c :: cs) || containsSub needle cs

/-- Rust `str::contains(needle)` on Lean strings. -/
def rsContains (hay needle : String) : Bool :=
  containsSub needle.data hay.data

/-! ### Structured backend (Windows / `schtasks.exe`) -/

/-- The `match repeat.as_str()` of `create_scheduled_task` (lines 25–31):
map the recurrence string to the `/SC` schedule-type token; anything
unrecognized falls through to `"ONCE"`. -/
def scMap (rep : String) : String :=
  if rep = "hourly" then "HOURLY"
  else if rep = "daily" then "DAILY"
  else if rep = "weekly" then "WEEKLY"
  else if rep = "monthly" then "MONTHLY"
  else "ONCE"

/-- The fixed argument vector built at lines 33–44 of
`create_scheduled_task`, before the conditional `/SD` push. -/
def schtasksBaseArgs (task_name script_path start_time rep : String) :
    List String :=
  ["/Create", "/TN", "AUI\\" ++ task_name,
   "/TR", "powershell.exe -ExecutionPolicy Bypass -File \"" ++ script_path ++ "\"",
   "/SC", scMap rep, "/ST", start_time, "/F"]

/-- The full `schtasks.exe` argument list of `create_scheduled_task`
(lines 33–50): the base vector, then `/SD start_date` pushed only when the
mapped schedule type is not `HOURLY` and `start_date` is nonempty. -/
def schtasksArgs (task_name script_path start_time start_date rep : String) :
    List String :=
  let args :=
    ["/Create", "/TN", "AUI\\" ++ task_name,
     "/TR", "powershell.exe -ExecutionPolicy Bypass -File \"" ++ script_path ++ "\"",
     "/SC", scMap rep, "/ST", start_time, "/F"]
  if scMap rep ≠ "HOURLY" ∧ start_date ≠ "" then args ++ ["/SD", start_date]
  else args

/-- `create_scheduled_task`, Windows branch (lines 16–64).  `run` is the
process-execution facility: it receives the argument list and yields either
the spawn error string or the process outcome. -/
def create_scheduled_task_win (run : List String → Except String ProcOutput)
    (task_name script_path start_time start_date rep : String) :
    Except String String :=
  match run (schtasksArgs task_name script_path start_time start_date rep) with
  | .error e => .error ("Failed to run schtasks: " ++ e)
  | .ok out =>
    if !out.success then .error ("schtasks failed: " ++ out.stderr)
    else .ok ("Created scheduled task: " ++ ("AUI\\" ++ task_name))

/-- `list_scheduled_tasks`, Windows branch (lines 139–150): stdout is
returned as success whatever the exit status ("schtasks returns non-zero if
no tasks found — that's OK"). -/
def list_scheduled_tasks_win (run : Except String ProcOutput) :
    Except String String :=
  match run with
  | .error e => .error ("Failed to query schtasks: " ++ e)
  | .ok out => .ok out.stdout

/-- `delete_scheduled_task`, Windows branch (lines 173–188). -/
def delete_scheduled_task_win (task_name : String)
    (run : Except String ProcOutput) : Except String String :=
  match run with
  | .error e => .error ("Failed to run schtasks: " ++ e)
  | .ok out =>
    if !out.success then .error ("schtasks delete failed: " ++ out.stderr)
    else .ok ("Deleted scheduled task: " ++ ("AUI\\" ++ task_name))

/-! ### Text backend (macOS/Linux / `crontab`) -/

/-- The `match repeat.as_str()` of the unix branch of
`create_scheduled_task` (lines 70–97): translate recurrence and start time
into a five-field cron expression.  `start_time` is split on `':'`; the
first chunk (hour) defaults to `"9"` and the second (minute) to `"0"` when
absent. -/
def cronExpr (rep start_time : String) : String :=
  if rep = "hourly" then "0 * * * *"
  else if rep = "daily" then
    let parts := rustSplit ':' start_time
    let hour := (parts.get? 0).getD "9"
    let mn := (parts.get? 1).getD "0"
    mn ++ " " ++ hour ++ " * * *"
  else if rep = "weekly" then
    let parts := rustSplit ':' start_time
    let hour := (parts.get? 0).getD "9"
    let mn := (parts.get? 1).getD "0"
    mn ++ " " ++ hour ++ " * * 1"
  else if rep = "monthly" then
    let parts := rustSplit ':' start_time
    let hour := (parts.get? 0).getD "9"
    let mn := (parts.get? 1).getD "0"
    mn ++ " " ++ hour ++ " 1 * *"
  else
    let parts := rustSplit ':' start_time
    let hour := (parts.get? 0).getD "9"
    let mn := (parts.get? 1).getD "0"
    mn ++ " " ++ hour ++ " * * *"

/-- The crontab entry appended by the unix branch (lines 99–102):
`"{cron_line} /bin/bash '{script_path}' # AUI:{task_name}\n"`. -/
def cronEntry (task_name script_path start_time rep : String) : String :=
  cronExpr rep start_time ++ " /bin/bash '" ++ script_path ++ "' # AUI:" ++
    task_name ++ "\n"

/-- The table written by the unix branch of `create_scheduled_task`
(line 111): the existing table (empty when reading it failed) with the new
entry appended.  `start_date` is accepted but never read by this branch. -/
def newCrontabAfterCreate
    (existing task_name script_path start_time _start_date rep : String) :
    String :=
  existing ++ cronEntry task_name script_path start_time rep

/-- Result of the unix branch of `create_scheduled_task` (lines 113–131):
`spawnRes` is `crontab -` spawning, `writeRes` the stdin write, `waitRes`
the wait — its `Bool` payload is `status.success()`, which the code
discards. -/
def create_scheduled_task_unix (task_name : String)
    (spawnRes writeRes : Except String Unit) (waitRes : Except String Bool) :
    Except String String :=
  match spawnRes with
  | .error e => .error ("Failed to set crontab: " ++ e)
  | .ok _ =>
    match writeRes with
    | .error e => .error ("Failed to write crontab: " ++ e)
    | .ok _ =>
      match waitRes with
      | .error e => .error ("crontab process error: " ++ e)
      | .ok _ => .ok ("Created cron job: AUI:" ++ task_name)

/-- The ownership-marker filter of the unix branch of
`list_scheduled_tasks` (lines 161–164): keep the lines containing
`"# AUI:"`, in file order. -/
def auiFilter (stdout : String) : List String :=
  (rustLines stdout).filter (fun l => rsContains l "# AUI:")

/-- `list_scheduled_tasks`, unix branch (lines 152–166). -/
def list_scheduled_tasks_unix (run : Except String ProcOutput) :
    Except String String :=
  match run with
  | .error e => .error ("Failed to read crontab: " ++ e)
  | .ok out => .ok (String.intercalate "\n" (auiFilter out.stdout))

/-- The deletion marker of the unix branch of `delete_scheduled_task`
(line 192): `"# AUI:{task_name}"`. -/
def deleteMarker (task_name : String) : String := "# AUI:" ++ task_name

/-- The line filter of the unix branch of `delete_scheduled_task`
(lines 200–203): keep every line NOT containing the marker as a
substring. -/
def deleteFiltered (task_name existing : String) : List String :=
  (rustLines existing).filter (fun l => !(rsContains l (deleteMarker task_name)))

/-- The table written by the unix branch of `delete_scheduled_task`
(line 204): the kept lines joined by newlines, plus a trailing newline. -/
def newCrontabAfterDelete (task_name existing : String) : String :=
  String.intercalate "\n" (deleteFiltered task_name existing) ++ "\n"

/-- Result of the unix branch of `delete_scheduled_task` (lines 206–224);
as in creation, the exit status of `crontab -` (the `Bool` of `waitRes`) is
discarded. -/
def delete_scheduled_task_unix (task_name : String)
    (spawnRes writeRes : Except String Unit) (waitRes : Except String Bool) :
    Except String String :=
  match spawnRes with
  | .error e => .error ("Failed to set crontab: " ++ e)
  | .ok _ =>
    match writeRes with
    | .error e => .error ("Failed to write crontab: " ++ e)
    | .ok _ =>
      match waitRes with
      | .error e => .error ("crontab process error: " ++ e)
      | .ok _ => .ok ("Deleted cron job: AUI:" ++ task_name)

/-! ### Claims -/

/-- C1, counterexample: deleting `"Backup"` also removes the line of the
task `"Backup2"`, because line 202 of `delete_scheduled_task` tests
`line.contains(marker)` and `"# AUI:Backup"` is a substring of
`"# AUI:Backup2"` — the claim says a task whose name merely has the deleted
name as a prefix must remain. -/
theorem C1_counterexample :
    rsContains "30 14 * * 1 /bin/bash '/s.sh' # AUI:Backup2"
      (deleteMarker "Backup") = true
  ∧ deleteFiltered "Backup"
      "30 14 * * 1 /bin/bash '/s.sh' # AUI:Backup2\n" = [] := by decide

/-- C1 (amended): Delete on the Text backend removes exactly the lines that
contain `"# AUI:<name>"` as a substring — which also removes any task whose
name has the deleted name as a prefix; the kept lines are exactly the
non-matching lines of the table, in order, and the rewritten table is their
newline join plus a trailing newline. -/
theorem C1_delete_removes_marker_substring_lines (task_name existing : String) :
    (∀ l, l ∈ deleteFiltered task_name existing ↔
        l ∈ rustLines existing ∧ rsContains l (deleteMarker task_name) = false)
  ∧ List.Sublist (deleteFiltered task_name existing) (rustLines existing)
  ∧ newCrontabAfterDelete task_name existing =
      String.intercalate "\n" (deleteFiltered task_name existing) ++ "\n" := by
  refine ⟨fun l => ?_, List.filter_sublist _, rfl⟩
  simp [deleteFiltered, List.mem_filter]

/-- C1 witness: a line whose marker names an unrelated task survives a
concrete deletion. -/
theorem C1_delete_removes_marker_substring_lines_witness :
    "0 9 * * * /bin/bash '/k.sh' # AUI:Keep" ∈
      deleteFiltered "Backup" "0 9 * * * /bin/bash '/k.sh' # AUI:Keep\n" :=
  ((C1_delete_removes_marker_substring_lines "Backup"
      "0 9 * * * /bin/bash '/k.sh' # AUI:Keep\n").1
    "0 9 * * * /bin/bash '/k.sh' # AUI:Keep").mpr ⟨by decide, by decide⟩

/-- C2, counterexample: on the Text backend the `crontab -` write runs and
reports failure (`waitRes = .ok false`), yet Register returns success —
lines 126–128 discard the exit status, so a non-success status is not turned
into an error as the claim requires of both backends. -/
theorem C2_counterexample :
    create_scheduled_task_unix "Backup" (Except.ok ()) (Except.ok ())
      (Except.ok false) = Except.ok "Created cron job: AUI:Backup" := rfl

/-- C2 (amended): on the Structured backend Register errors with the
mechanism's stderr exactly when the mechanism reports non-success; on the
Text backend the write mechanism's exit status is discarded and Register
succeeds whatever status it reports. -/
theorem C2_register_status_handling
    (task_name script_path start_time start_date rep : String)
    (out : ProcOutput) (b : Bool) :
    create_scheduled_task_win (fun _ => Except.ok out)
        task_name script_path start_time start_date rep =
      (if out.success then
        Except.ok ("Created scheduled task: " ++ ("AUI\\" ++ task_name))
       else Except.error ("schtasks failed: " ++ out.stderr))
  ∧ create_scheduled_task_unix task_name (Except.ok ()) (Except.ok ())
      (Except.ok b) = Except.ok ("Created cron job: AUI:" ++ task_name) := by
  refine ⟨?_, rfl⟩
  simp only [create_scheduled_task_win]
  cases h : out.success <;> simp [h]

/-- C3: List on the Text backend returns exactly the lines of the table
containing the marker token `"# AUI:"`, in file order, and never a line
lacking it. -/
theorem C3_list_text_exactly_marker_lines
    (stdout : String) (success : Bool) (stderr : String) :
    list_scheduled_tasks_unix (Except.ok ⟨success, stdout, stderr⟩) =
      Except.ok (String.intercalate "\n" (auiFilter stdout))
  ∧ (∀ l ∈ auiFilter stdout, rsContains l "# AUI:" = true)
  ∧ List.Sublist (auiFilter stdout) (rustLines stdout)
  ∧ (∀ l ∈ rustLines stdout, rsContains l "# AUI:" = true →
      l ∈ auiFilter stdout) := by
  refine ⟨rfl, ?_, List.filter_sublist _, ?_⟩
  · intro l hl
    exact (List.mem_filter.mp hl).2
  · intro l hl hm
    exact List.mem_filter.mpr ⟨hl, hm⟩

/-- C3 witness: a table mixing a foreign line and an owned line lists the
owned line. -/
theorem C3_list_text_exactly_marker_lines_witness :
    list_scheduled_tasks_unix (Except.ok ⟨true,
        "0 * * * * /usr/bin/foreign\n30 14 * * 1 /bin/bash '/b.sh' # AUI:Backup\n",
        ""⟩) =
      Except.ok (String.intercalate "\n" (auiFilter
        "0 * * * * /usr/bin/foreign\n30 14 * * 1 /bin/bash '/b.sh' # AUI:Backup\n"))
  ∧ "30 14 * * 1 /bin/bash '/b.sh' # AUI:Backup" ∈ auiFilter
      "0 * * * * /usr/bin/foreign\n30 14 * * 1 /bin/bash '/b.sh' # AUI:Backup\n" :=
  ⟨(C3_list_text_exactly_marker_lines
      "0 * * * * /usr/bin/foreign\n30 14 * * 1 /bin/bash '/b.sh' # AUI:Backup\n"
      true "").1,
   (C3_list_text_exactly_marker_lines
      "0 * * * * /usr/bin/foreign\n30 14 * * 1 /bin/bash '/b.sh' # AUI:Backup\n"
      true "").2.2.2
    "30 14 * * 1 /bin/bash '/b.sh' # AUI:Backup" (by decide) (by decide)⟩

/-- C4, counterexample: the name `"Back"` was never registered, yet deleting
it over a table holding only the registered task `"Backup"` returns success
while removing the Backup line — line 202's substring test matches
`"# AUI:Back"` inside `"# AUI:Backup"`, so the existing entries do change,
against the claim's "success with no change to the existing entries". -/
theorem C4_counterexample :
    delete_scheduled_task_unix "Back" (Except.ok ()) (Except.ok ())
      (Except.ok true) = Except.ok "Deleted cron job: AUI:Back"
  ∧ rustLines "30 14 * * 1 /bin/bash '/b.sh' # AUI:Backup\n" =
      ["30 14 * * 1 /bin/bash '/b.sh' # AUI:Backup"]
  ∧ deleteFiltered "Back" "30 14 * * 1 /bin/bash '/b.sh' # AUI:Backup\n" =
      [] := by
  refine ⟨rfl, by decide, by decide⟩

/-- C4 (amended): Delete of a never-registered name errors on the Structured
backend (the mechanism reports not-found as a non-success status, which
lines 182–185 surface); on the Text backend it returns success, and the
existing entries are unchanged provided no existing line contains
`"# AUI:<name>"` as a substring — a condition a never-registered name can
violate when a registered task's name extends it, in which case that line is
removed too. -/
theorem C4_delete_unregistered (task_name existing : String)
    (out : ProcOutput) (b : Bool)
    (hfail : out.success = false)
    (hnone : ∀ l ∈ rustLines existing,
      rsContains l (deleteMarker task_name) = false) :
    delete_scheduled_task_win task_name (Except.ok out) =
      Except.error ("schtasks delete failed: " ++ out.stderr)
  ∧ deleteFiltered task_name existing = rustLines existing
  ∧ delete_scheduled_task_unix task_name (Except.ok ()) (Except.ok ())
      (Except.ok b) = Except.ok ("Deleted cron job: AUI:" ++ task_name) := by
  refine ⟨?_, ?_, rfl⟩
  · simp [delete_scheduled_task_win, hfail]
  · apply List.filter_eq_self.mpr
    intro l hl
    simp [hnone l hl]

/-- C4 witness: deleting the unregistered name `"X"` over a table holding
only the task `"Other"`. -/
theorem C4_delete_unregistered_witness :
    delete_scheduled_task_win "X"
      (Except.ok ⟨false, "", "ERROR: not found"⟩) =
      Except.error ("schtasks delete failed: " ++ "ERROR: not found")
  ∧ deleteFiltered "X" "0 9 * * * /bin/bash '/a.sh' # AUI:Other\n" =
      rustLines "0 9 * * * /bin/bash '/a.sh' # AUI:Other\n"
  ∧ delete_scheduled_task_unix "X" (Except.ok ()) (Except.ok ())
      (Except.ok true) = Except.ok ("Deleted cron job: AUI:" ++ "X") :=
  C4_delete_unregistered "X" "0 9 * * * /bin/bash '/a.sh' # AUI:Other\n"
    ⟨false, "", "ERROR: not found"⟩ true rfl (by decide)

/-- C5: every non-hourly branch of the Text backend's cron translation
computes hour and minute by splitting `start_time` on `':'`, defaulting a
missing first chunk (hour) to `"9"` and a missing second chunk (minute) to
`"0"`. -/
theorem C5_time_split_defaults (st : String) :
    cronExpr "daily" st =
      ((rustSplit ':' st).get? 1).getD "0" ++ " " ++
        ((rustSplit ':' st).get? 0).getD "9" ++ " * * *"
  ∧ cronExpr "weekly" st =
      ((rustSplit ':' st).get? 1).getD "0" ++ " " ++
        ((rustSplit ':' st).get? 0).getD "9" ++ " * * 1"
  ∧ cronExpr "monthly" st =
      ((rustSplit ':' st).get? 1).getD "0" ++ " " ++
        ((rustSplit ':' st).get? 0).getD "9" ++ " 1 * *"
  ∧ (∀ rep, rep ≠ "hourly" → rep ≠ "daily" → rep ≠ "weekly" →
      rep ≠ "monthly" →
      cronExpr rep st =
        ((rustSplit ':' st).get? 1).getD "0" ++ " " ++
          ((rustSplit ':' st).get? 0).getD "9" ++ " * * *") := by
  refine ⟨rfl, rfl, rfl, ?_⟩
  intro rep h1 h2 h3 h4
  simp [cronExpr, h1, h2, h3, h4]

/-- C5 witness: a start time with no `':'` keeps its whole text as the hour
and gets the default minute `"0"`. -/
theorem C5_time_split_defaults_witness :
    cronExpr "once" "14" =
      ((rustSplit ':' "14").get? 1).getD "0" ++ " " ++
        ((rustSplit ':' "14").get? 0).getD "9" ++ " * * *" :=
  (C5_time_split_defaults "14").2.2.2 "once"
    (by decide) (by decide) (by decide) (by decide)

/-- C6: registering `name="Backup"`, `script="/scripts/b.sh"`,
`start_time="14:30"`, empty start date, weekly recurrence on the Text
backend appends exactly the line
`30 14 * * 1 /bin/bash '/scripts/b.sh' # AUI:Backup` (with its trailing
newline) to the existing table. -/
theorem C6_weekly_backup_entry (existing : String) :
    newCrontabAfterCreate existing "Backup" "/scripts/b.sh" "14:30" "" "weekly" =
      existing ++ "30 14 * * 1 /bin/bash '/scripts/b.sh' # AUI:Backup\n" := rfl

/-- C7: the hourly branch of the Text backend yields the fixed expression
`0 * * * *` for every `start_time`. -/
theorem C7_hourly_ignores_start_time (st : String) :
    cronExpr "hourly" st = "0 * * * *" := rfl

/-- C8: the Structured backend's recurrence mapping sends once→ONCE,
hourly→HOURLY, daily→DAILY, weekly→WEEKLY, monthly→MONTHLY, and every other
value falls back to ONCE. -/
theorem C8_recurrence_token_map :
    scMap "once" = "ONCE" ∧ scMap "hourly" = "HOURLY" ∧ scMap "daily" = "DAILY"
  ∧ scMap "weekly" = "WEEKLY" ∧ scMap "monthly" = "MONTHLY"
  ∧ ∀ rep, rep ≠ "hourly" → rep ≠ "daily" → rep ≠ "weekly" →
      rep ≠ "monthly" → scMap rep = "ONCE" := by
  refine ⟨rfl, rfl, rfl, rfl, rfl, ?_⟩
  intro rep h1 h2 h3 h4
  simp [scMap, h1, h2, h3, h4]

/-- C8 witness: the unrecognized value `"yearly"` maps to `ONCE`. -/
theorem C8_recurrence_token_map_witness : scMap "yearly" = "ONCE" :=
  C8_recurrence_token_map.2.2.2.2.2 "yearly"
    (by decide) (by decide) (by decide) (by decide)

/-- C9: the Structured backend's argument list is the fixed base vector
followed by `/SD start_date` exactly when the mapped schedule type is not
`HOURLY` and `start_date` is nonempty. -/
theorem C9_start_date_inclusion
    (task_name script_path start_time start_date rep : String) :
    schtasksArgs task_name script_path start_time start_date rep =
      schtasksBaseArgs task_name script_path start_time rep ++
        (if scMap rep ≠ "HOURLY" ∧ start_date ≠ "" then ["/SD", start_date]
         else []) := by
  simp only [schtasksArgs, schtasksBaseArgs]
  split <;> simp

/-- C10: List on the Structured backend returns the query's captured stdout
as success whatever exit status the query reported — the status never
reaches the caller. -/
theorem C10_list_structured_ignores_status
    (success : Bool) (stdout stderr : String) :
    list_scheduled_tasks_win (Except.ok ⟨success, stdout, stderr⟩) =
      Except.ok stdout := rfl
